import Mathlib

/-!
Verification development for the RAG customer-support backend
(`api_server.py`, `rag_doc_vect_embedding_csv.py`, `rag_doc_vect_retriever.py`,
`rag_doc_vect_agent_main.py`).

The Python dictionaries (`knowledge_bases`, `documents_storage`, `chat_tasks`,
and the Chroma vector collection keyed by chunk id) are embedded as
insertion-ordered association lists with dictionary-style assignment
(replace in place when the key exists, append otherwise).  Python `int`
counters are `Int`; timestamps are seconds as `Nat`.  The handlers are
modelled in the `RAG_AVAILABLE = True` configuration except where a claim
is about the mock branch, which is modelled by an explicit flag.
-/

/-- Dictionary lookup `d.get(k)` / `d[k]` on an association list. -/
def assocGet (l : List (String × α)) (k : String) : Option α :=
  (l.find? (fun e => e.1 == k)).map (fun e => e.2)

/-- Key membership `k in d`. -/
def assocHas (l : List (String × α)) (k : String) : Bool :=
  (assocGet l k).isSome

/-- Dictionary assignment `d[k] = v`: replace in place when present, append otherwise. -/
def assocSet (l : List (String × α)) (k : String) (v : α) : List (String × α) :=
  if assocHas l k then l.map (fun e => if e.1 == k then (k, v) else e)
  else l ++ [(k, v)]

/-- Dictionary deletion `del d[k]` (keys are unique in a Python dict). -/
def assocErase (l : List (String × α)) (k : String) : List (String × α) :=
  l.filter (fun e => !(e.1 == k))

/-- In-place mutation `d[k].field = ...` of the value stored under `k`. -/
def assocUpdate (l : List (String × α)) (k : String) (f : α → α) : List (String × α) :=
  l.map (fun e => if e.1 == k then (e.1, f e.2) else e)

/-! ### MD5 (used by `generate_doc_id` in `api_server.py`)

`hashlib.md5` is embedded directly: bytes are `Nat < 256`, 32-bit words are
`Nat` reduced with `&&& 4294967295`. -/

/-- The 64 MD5 round constants `K[i] = floor(abs(sin(i+1)) * 2^32)`. -/
def md5K : List Nat :=
  [3614090360, 3905402710, 606105819, 3250441966, 4118548399, 1200080426,
   2821735955, 4249261313, 1770035416, 2336552879, 4294925233, 2304563134,
   1804603682, 4254626195, 2792965006, 1236535329, 4129170786, 3225465664,
   643717713, 3921069994, 3593408605, 38016083, 3634488961, 3889429448,
   568446438, 3275163606, 4107603335, 1163531501, 2850285829, 4243563512,
   1735328473, 2368359562, 4294588738, 2272392833, 1839030562, 4259657740,
   2763975236, 1272893353, 4139469664, 3200236656, 681279174, 3936430074,
   3572445317, 76029189, 3654602809, 3873151461, 530742520, 3299628645,
   4096336452, 1126891415, 2878612391, 4237533241, 1700485571, 2399980690,
   4293915773, 2240044497, 1873313359, 4264355552, 2734768916, 1309151649,
   4149444226, 3174756917, 718787259, 3951481745]

/-- The 64 MD5 per-round left-rotation amounts. -/
def md5S : List Nat :=
  [7, 12, 17, 22, 7, 12, 17, 22, 7, 12, 17, 22, 7, 12, 17, 22,
   5, 9, 14, 20, 5, 9, 14, 20, 5, 9, 14, 20, 5, 9, 14, 20,
   4, 11, 16, 23, 4, 11, 16, 23, 4, 11, 16, 23, 4, 11, 16, 23,
   6, 10, 15, 21, 6, 10, 15, 21, 6, 10, 15, 21, 6, 10, 15, 21]

def mask32 : Nat := 4294967295

/-- Left rotation of a 32-bit word. -/
def rotl32 (x s : Nat) : Nat :=
  ((x <<< s) ||| (x >>> (32 - s))) &&& mask32

/-- Little-endian byte decomposition, `k` bytes. -/
def leBytes : Nat → Nat → List Nat
  | 0, _ => []
  | k + 1, n => (n &&& 255) :: leBytes k (n >>> 8)

/-- Little-endian word from bytes. -/
def leWord : List Nat → Nat
  | [] => 0
  | b :: rest => b + 256 * leWord rest

/-- MD5 padding: a 1-bit, zeros to 56 mod 64 bytes, then the 64-bit bit length. -/
def md5Pad (msg : List Nat) : List Nat :=
  let z := (120 - (msg.length + 1) % 64) % 64
  msg ++ [128] ++ List.replicate z 0 ++ leBytes 8 (msg.length * 8)

/-- MD5 nonlinear function of round `i`. -/
def md5F (i b c d : Nat) : Nat :=
  if i < 16 then (b &&& c) ||| ((b ^^^ mask32) &&& d)
  else if i < 32 then (d &&& b) ||| ((d ^^^ mask32) &&& c)
  else if i < 48 then b ^^^ c ^^^ d
  else c ^^^ (b ||| (d ^^^ mask32))

/-- MD5 message-word index of round `i`. -/
def md5G (i : Nat) : Nat :=
  if i < 16 then i
  else if i < 32 then (5 * i + 1) % 16
  else if i < 48 then (3 * i + 5) % 16
  else (7 * i) % 16

/-- One MD5 round on the register quadruple. -/
def md5Step (M : Nat → Nat) (st : Nat × Nat × Nat × Nat) (i : Nat) : Nat × Nat × Nat × Nat :=
  let a := st.1
  let b := st.2.1
  let c := st.2.2.1
  let d := st.2.2.2
  let tmp := (md5F i b c d + a + md5K.getD i 0 + M (md5G i)) &&& mask32
  (d, (b + rotl32 tmp (md5S.getD i 0)) &&& mask32, b, c)

/-- Process one 64-byte block. -/
def md5Block (st : Nat × Nat × Nat × Nat) (block : List Nat) : Nat × Nat × Nat × Nat :=
  let M : Nat → Nat := fun g => leWord ((block.drop (4 * g)).take 4)
  let r := (List.range 64).foldl (md5Step M) st
  ((st.1 + r.1) &&& mask32, (st.2.1 + r.2.1) &&& mask32,
   (st.2.2.1 + r.2.2.1) &&& mask32, (st.2.2.2 + r.2.2.2) &&& mask32)

/-- Split a (padded) byte list into its 64-byte blocks. -/
def blocksOf (l : List Nat) : List (List Nat) :=
  (List.range (l.length / 64)).map (fun i => (l.drop (64 * i)).take 64)

/-- The 16-byte MD5 digest of a byte list. -/
def md5Digest (msg : List Nat) : List Nat :=
  let st := (blocksOf (md5Pad msg)).foldl md5Block
    (1732584193, 4023233417, 2562383102, 271733878)
  leBytes 4 st.1 ++ leBytes 4 st.2.1 ++ leBytes 4 st.2.2.1 ++ leBytes 4 st.2.2.2

def hexChar (n : Nat) : Char :=
  if n < 10 then Char.ofNat (48 + n) else Char.ofNat (87 + n)

def byteHex (b : Nat) : String :=
  String.singleton (hexChar (b / 16)) ++ String.singleton (hexChar (b % 16))

/-- `hashlib.md5(bytes).hexdigest()`. -/
def md5Hex (msg : List Nat) : String :=
  String.join ((md5Digest msg).map byteHex)

/-- UTF-8 encoding of one character (Python `str.encode()`). -/
def encodeChar (c : Char) : List Nat :=
  let n := c.toNat
  if n < 128 then [n]
  else if n < 2048 then [192 ||| (n >>> 6), 128 ||| (n &&& 63)]
  else if n < 65536 then
    [224 ||| (n >>> 12), 128 ||| ((n >>> 6) &&& 63), 128 ||| (n &&& 63)]
  else
    [240 ||| (n >>> 18), 128 ||| ((n >>> 12) &&& 63),
     128 ||| ((n >>> 6) &&& 63), 128 ||| (n &&& 63)]

/-- UTF-8 encoding of a string (Python `str.encode()`). -/
def utf8Encode (s : String) : List Nat :=
  (s.data.map encodeChar).flatten

/-- `generate_doc_id` (api_server.py:126-128):
`"doc_" + hashlib.md5(filename.encode()).hexdigest()[:8]`. -/
def generate_doc_id (filename : String) : String :=
  "doc_" ++ (md5Hex (utf8Encode filename)).take 8

/-- `generate_kb_id` (api_server.py:122-124). -/
def generate_kb_id (name : String) : String :=
  "kb_" ++ (md5Hex (utf8Encode name)).take 8

/-! ### Python string primitives

`str.strip()`, `str.lower()` and separator splitting, implemented over the
character list so that every definition evaluates by kernel reduction. -/

/-- `str.strip()`: drop leading and trailing whitespace. -/
def strTrim (s : String) : String :=
  String.mk (((s.data.dropWhile Char.isWhitespace).reverse.dropWhile Char.isWhitespace).reverse)

/-- `str.lower()`. -/
def strToLower (s : String) : String :=
  String.mk (s.data.map Char.toLower)

/-- Split a character list on a non-empty separator; the fuel is an upper
bound on the number of characters consumed and is always sufficient. -/
def splitOnCharsAux (sep : List Char) : Nat → List Char → List Char → List (List Char)
  | _, [], acc => [acc.reverse]
  | 0, l, acc => [acc.reverse ++ l]
  | fuel + 1, c :: rest, acc =>
    if sep.isPrefixOf (c :: rest) then
      acc.reverse :: splitOnCharsAux sep fuel ((c :: rest).drop sep.length) []
    else splitOnCharsAux sep fuel rest (c :: acc)

/-- Separator split of a string (the behaviour of `String.splitOn` /
Python's `str.split(sep)` on the inputs this repository uses). -/
def strSplitOn (s : String) (sep : String) : List String :=
  if sep = "" then [s]
  else (splitOnCharsAux sep.data s.data.length s.data []).map String.mk

/-! ### Document chunker (`rag_doc_vect_embedding_csv.py`, `DocumentProcessor`) -/

/-- Metadata of a langchain `Document` as used by this repository: the keys
that the source ever writes or reads (`id`, `source`, `row_id`, `kb_id`,
`type`), each optional as in a Python dict. -/
structure DocMetadata where
  id : Option String := none
  source : Option String := none
  row_id : Option Nat := none
  kb_id : Option String := none
  type : Option String := none
deriving DecidableEq

/-- A langchain `Document`: `page_content` plus metadata. -/
structure Document where
  page_content : String
  metadata : DocMetadata := {}
deriving DecidableEq

/-- A chunk produced by `DocumentProcessor.chunk_documents`: the split text,
the inherited document metadata, and the three keys the source adds
(`chunk_id`, `chunk_index`, `original_id`). -/
structure Chunk where
  page_content : String
  metadata : DocMetadata := {}
  chunk_id : String
  chunk_index : Nat
  original_id : String
deriving DecidableEq

/-- Error taxonomy of the spec relevant to the chunker: `ConfigurationError`
for invalid chunking parameters, fatal to the single call, not the process
(hence `Except`, not divergence). -/
inductive ChunkError where
  | configurationError
deriving DecidableEq

/-- `DocumentProcessor.__init__` defaults (`chunk_size=500, chunk_overlap=50`);
Python ints are `Int`. -/
structure DocumentProcessor where
  chunk_size : Int := 500
  chunk_overlap : Int := 50
deriving DecidableEq

def sepPriority : List String := ["\n\n", "\n", "。", ".", " ", ""]

/-- Split `text` by one separator; the empty separator splits into single
characters. -/
def piecesBy (sep : String) (text : String) : List String :=
  if sep = "" then text.data.map String.singleton else strSplitOn text sep

/-- Coarsest separator of the priority list whose pieces all fit `size`. -/
def chooseSep (size : Nat) (text : String) : String :=
  (sepPriority.find? (fun sep => (piecesBy sep text).all (fun p => p.length ≤ size))).getD ""

/-- Greedy merge of pieces into chunks of at most `size` characters; a new
chunk starts with the last `overlap` characters of the previous one. -/
def mergePieces (size overlap : Nat) : List String → String → List String
  | [], cur => if cur = "" then [] else [cur]
  | p :: rest, cur =>
    if cur = "" then mergePieces size overlap rest p
    else if cur.length + p.length ≤ size then mergePieces size overlap rest (cur ++ p)
    else cur :: mergePieces size overlap rest ((cur.drop (cur.length - overlap)) ++ p)

/-- Modelled from the spec: the text splitting performed by langchain's
`RecursiveCharacterTextSplitter`, whose implementation is not part of the
repository sources.  Spec 4.1: split on the prioritized separator list
(paragraph break, line break, sentence punctuation, space, empty string)
choosing the coarsest separator that still yields pieces of at most
`chunk_size` characters, with adjacent chunks overlapping by
`chunk_overlap` characters; a document shorter than `chunk_size` yields
exactly one chunk. -/
def splitTextSpec (size overlap : Nat) (text : String) : List String :=
  if text.length ≤ size then [text]
  else mergePieces size overlap (piecesBy (chooseSep size text) text) ""

/-- The loop body of `DocumentProcessor.chunk_documents`
(rag_doc_vect_embedding_csv.py:74-92): for each document, split its content,
then give chunk `i` the id `{original_id}_{i}` where `original_id` is the
document's metadata `id` or, when absent, `doc_{len(chunked_docs)}` with
the accumulator length taken before this document's chunks are appended. -/
def chunkDocumentsCore (split : String → List String) : List Document → List Chunk → List Chunk
  | [], acc => acc
  | d :: ds, acc =>
    let oid := d.metadata.id.getD ("doc_" ++ toString acc.length)
    let newChunks := ((split d.page_content).enum).map (fun pr =>
      { page_content := pr.2, metadata := d.metadata,
        chunk_id := oid ++ "_" ++ toString pr.1, chunk_index := pr.1,
        original_id := oid : Chunk })
    chunkDocumentsCore split ds (acc ++ newChunks)

/-- `DocumentProcessor.chunk_documents`: parameter validation modelled from
the spec (4.1: overlap at least size, or nonpositive size, is a
`ConfigurationError`), the chunk construction from the source. -/
def DocumentProcessor.chunk_documents (p : DocumentProcessor) (docs : List Document) :
    Except ChunkError (List Chunk) :=
  if p.chunk_overlap ≥ p.chunk_size ∨ p.chunk_size ≤ 0 then
    .error .configurationError
  else
    .ok (chunkDocumentsCore (splitTextSpec p.chunk_size.toNat p.chunk_overlap.toNat) docs [])

/-- The Chroma collection keyed by chunk id: delete-by-id and add-with-id
are the only operations the repository uses. -/
abbrev VectorStore := List (String × Chunk)

/-- `vector_store.delete(ids=...)`. -/
def vsDelete (vs : VectorStore) (ids : List String) : VectorStore :=
  vs.filter (fun e => !(ids.contains e.1))

/-- `vector_store.add_documents(documents=..., ids=...)` with ids taken from
each chunk's `chunk_id` metadata, as in `process_and_store`. -/
def vsAdd (vs : VectorStore) (chunks : List Chunk) : VectorStore :=
  vs ++ chunks.map (fun c => (c.chunk_id, c))

/-- `DocumentProcessor.process_and_store`
(rag_doc_vect_embedding_csv.py:94-117): chunk, collect the new chunk ids,
delete them from the store, then insert the chunks under those ids;
returns the number of chunks stored. -/
def DocumentProcessor.process_and_store (p : DocumentProcessor) (docs : List Document)
    (vs : VectorStore) : Except ChunkError (Nat × VectorStore) :=
  match p.chunk_documents docs with
  | .error e => .error e
  | .ok chunked =>
    let new_ids := chunked.map (fun c => c.chunk_id)
    .ok (chunked.length, vsAdd (vsDelete vs new_ids) chunked)

def defaultProcessor : DocumentProcessor := {}

/-! ### CSV ingestion (`api_server.py`) -/

/-- One CSV row: the cells in column order; `none` models a `NaN` cell
(`pd.notna` false). -/
abbrev Row := List (String × Option String)

def rowLookup (row : Row) (col : String) : Option (Option String) :=
  (row.find? (fun e => e.1 == col)).map (fun e => e.2)

/-- The content built for one CSV row (api_server.py:147-157): the `Title`
and `desc` cells when present and non-NaN, then every other non-NaN column
as a `col: value` line. -/
def rowContent (row : Row) : String :=
  let titlePart :=
    match rowLookup row "Title" with
    | some (some v) => "标题: " ++ v ++ "\n"
    | _ => ""
  let descPart :=
    match rowLookup row "desc" with
    | some (some v) => "描述: " ++ v ++ "\n"
    | _ => ""
  let rest := row.foldl (fun acc e =>
    if e.1 ≠ "Title" ∧ e.1 ≠ "desc" then
      match e.2 with
      | some v => acc ++ e.1 ++ ": " ++ v ++ "\n"
      | none => acc
    else acc) ""
  titlePart ++ descPart ++ rest

/-- `process_csv_to_vector_store` (api_server.py:130-187): each row with
non-empty stripped content becomes a `Document` tagged with the path, row
index, knowledge base and `csv_row` type; empty rows are skipped without
failing.  With no valid documents it reports `False`; otherwise it commits
through `DocumentProcessor().process_and_store` and reports `True` (or
`False` when the commit raises). -/
def process_csv_to_vector_store (rows : List Row) (csv_path kb_id : String)
    (vs : VectorStore) : Bool × VectorStore :=
  let documents := rows.enum.filterMap (fun pr =>
    let content := rowContent pr.2
    if strTrim content ≠ "" then
      some { page_content := strTrim content,
             metadata := { source := some csv_path, row_id := some pr.1,
                           kb_id := some kb_id, type := some "csv_row" } : Document }
    else none)
  if documents.isEmpty then (false, vs)
  else
    match defaultProcessor.process_and_store documents vs with
    | .ok r => (true, r.2)
    | .error _ => (false, vs)

/-! ### Knowledge-base / document registry (`api_server.py`) -/

/-- A `knowledge_bases` entry; only the fields the claims touch are kept
(`created_at` and the chunking configuration are never read by the
modelled handlers). -/
structure KBRecord where
  id : String
  name : String := ""
  document_count : Int := 0
  chunk_count : Int := 0
deriving DecidableEq

/-- A `documents_storage` entry. -/
structure DocRecord where
  id : String
  name : String := ""
  kb_id : String
  file_path : String := ""
  size : Nat := 0
  status : String := "processing"
  chunk_num : Int := 0
  type : String := ""
deriving DecidableEq

/-- The server's shared mutable registries plus the vector index. -/
structure ServerState where
  knowledge_bases : List (String × KBRecord) := []
  documents_storage : List (String × DocRecord) := []
  vector_store : VectorStore := []
deriving DecidableEq

/-- `Path(name).suffix` of a filename. -/
def pathSuffix (name : String) : String :=
  let base := (strSplitOn name "/").getLastD name
  let parts := strSplitOn base "."
  if parts.length ≤ 1 then ""
  else
    let last := parts.getLastD ""
    if last = "" then ""
    else if parts.length = 2 ∧ parts.headD "" = "" then ""
    else "." ++ last

def allowed_extensions : List String := [".pdf", ".docx", ".txt", ".csv", ".xlsx"]

/-- An uploaded file as the handlers see it: its name, its parse as CSV rows
(when read back with `pd.read_csv`), its text (when read back as UTF-8
text), and its byte size. -/
structure IngestFile where
  filename : String
  rows : List Row := []
  text : String := ""
  size : Nat := 0
deriving DecidableEq

inductive UploadResult where
  | notFound
  | badType
  | ok (doc : DocRecord)
deriving DecidableEq

/-- The `doc_info` record built by `upload_document` (api_server.py:415-426). -/
def uploadDocInfo (dataset_id : String) (file : IngestFile) : DocRecord :=
  let ext := strToLower (pathSuffix file.filename)
  { id := generate_doc_id file.filename, name := file.filename, kb_id := dataset_id,
    file_path := "./data/" ++ file.filename, size := file.size,
    status := "processing", chunk_num := 0, type := ext.drop 1 }

/-- `upload_document` (api_server.py:384-450): reject a missing knowledge
base or a disallowed extension; otherwise store a `processing` document
record under `generate_doc_id(filename)` (dictionary assignment, so a
colliding id overwrites), schedule background processing, and increment the
owning knowledge base's `document_count` synchronously. -/
def upload_document (st : ServerState) (dataset_id : String) (file : IngestFile) :
    UploadResult × ServerState :=
  if !(assocHas st.knowledge_bases dataset_id) then (.notFound, st)
  else
    let ext := strToLower (pathSuffix file.filename)
    if !(allowed_extensions.contains ext) then (.badType, st)
    else
      let doc_id := generate_doc_id file.filename
      let doc_info := uploadDocInfo dataset_id file
      let st1 := { st with documents_storage := assocSet st.documents_storage doc_id doc_info }
      let kbs2 := assocUpdate st1.knowledge_bases dataset_id
        (fun kb => { kb with document_count := kb.document_count + 1 })
      (.ok doc_info, { st1 with knowledge_bases := kbs2 })

/-- The `except` handler of `process_uploaded_document`: mark the record
failed when it still exists. -/
def markDocFailed (st : ServerState) (doc_id : String) : ServerState :=
  if assocHas st.documents_storage doc_id then
    let docs2 := assocUpdate st.documents_storage doc_id (fun d => { d with status := "failed" })
    { st with documents_storage := docs2 }
  else st

/-- The shared success tail of `process_uploaded_document`
(api_server.py:464-470, 493-496, 499-502): set the record's `chunk_num`
and status `completed`, then add the same count to the owning knowledge
base's `chunk_count`.  A `KeyError` on a vanished registry entry falls to
the `except` handler, which marks the record failed (and changes nothing
when the record itself is gone). -/
def completeDocAndCount (st : ServerState) (doc_id kb_id : String) (cnt : Int) : ServerState :=
  if assocHas st.documents_storage doc_id then
    let docs2 := assocUpdate st.documents_storage doc_id
      (fun d => { d with chunk_num := cnt, status := "completed" })
    let st2 := { st with documents_storage := docs2 }
    if assocHas st2.knowledge_bases kb_id then
      let kbs2 := assocUpdate st2.knowledge_bases kb_id
        (fun kb => { kb with chunk_count := kb.chunk_count + cnt })
      { st2 with knowledge_bases := kbs2 }
    else markDocFailed st2 doc_id
  else st

/-- `process_uploaded_document` (api_server.py:452-509): CSV files go through
`process_csv_to_vector_store`; on success the record gets
`chunk_num = len(df)` (the CSV row count) and status `completed`, and the
knowledge base's `chunk_count` is increased by `len(df)`; on failure the
record is marked `failed`.  Text files are committed as one document with
an estimated chunk count `len(content) // 500 + 1`; any other type is
marked completed with one chunk.  No branch ever touches `document_count`. -/
def process_uploaded_document (st : ServerState) (doc_id kb_id : String)
    (file : IngestFile) : ServerState :=
  let ext := strToLower (pathSuffix file.filename)
  if ext = ".csv" then
    let res := process_csv_to_vector_store file.rows ("./data/" ++ file.filename) kb_id st.vector_store
    let st1 := { st with vector_store := res.2 }
    if res.1 then completeDocAndCount st1 doc_id kb_id (file.rows.length : Int)
    else markDocFailed st1 doc_id
  else if ext = ".txt" then
    let doc : Document :=
      { page_content := file.text,
        metadata := { source := some ("./data/" ++ file.filename),
                      kb_id := some kb_id, type := some "text" } }
    match defaultProcessor.process_and_store [doc] st.vector_store with
    | .ok r =>
      completeDocAndCount { st with vector_store := r.2 } doc_id kb_id
        ((file.text.length / 500 + 1 : Nat) : Int)
    | .error _ => markDocFailed st doc_id
  else completeDocAndCount st doc_id kb_id 1

/-- `delete_dataset` (api_server.py:305-340): 404 for a missing knowledge
base; otherwise delete every document record owned by it, then the
knowledge-base entry itself.  The vector store is not touched.  Returns the
response `code` (0 on success). -/
def delete_dataset (st : ServerState) (dataset_id : String) : Nat × ServerState :=
  if !(assocHas st.knowledge_bases dataset_id) then (404, st)
  else
    let docs2 := st.documents_storage.filter (fun e => !(e.2.kb_id == dataset_id))
    let kbs2 := assocErase st.knowledge_bases dataset_id
    (0, { st with documents_storage := docs2, knowledge_bases := kbs2 })

/-- Sum of `document_count` over all knowledge-base entries. -/
def kbDocTotal (kbs : List (String × KBRecord)) : Int :=
  (kbs.map (fun e => e.2.document_count)).sum

/-- Sum of `chunk_count` over all knowledge-base entries. -/
def kbChunkTotal (kbs : List (String × KBRecord)) : Int :=
  (kbs.map (fun e => e.2.chunk_count)).sum

def docCountOf (st : ServerState) (k : String) : Option Int :=
  (assocGet st.knowledge_bases k).map (fun kb => kb.document_count)

def chunkCountOf (st : ServerState) (k : String) : Option Int :=
  (assocGet st.knowledge_bases k).map (fun kb => kb.chunk_count)

def docStatusOf (st : ServerState) (d : String) : Option String :=
  (assocGet st.documents_storage d).map (fun r => r.status)

/-- Rows skipped by the CSV ingestion: no non-empty content. -/
def csvSkippedCount (rows : List Row) : Nat :=
  rows.countP (fun row => strTrim (rowContent row) == "")

/-! ### Chat tasks (`api_server.py`, `process_chat_task` / `get_chat_task`) -/

/-- A `chat_tasks` entry; `status` is the literal Python string, timestamps
are seconds. -/
structure ChatTask where
  status : String
  question : String := ""
  created_at : Nat := 0
  completed_at : Option Nat := none
  failed_at : Option Nat := none
  result : Option String := none
  error : Option String := none
deriving DecidableEq

/-- `task_info.get("completed_at") or task_info.get("failed_at")`. -/
def taskTimestamp (t : ChatTask) : Option Nat :=
  t.completed_at.orElse (fun _ => t.failed_at)

/-- The retention window `timedelta(hours=1)` in seconds. -/
def retentionSeconds : Nat := 3600

/-- `get_chat_task` (api_server.py:717-742): 404 for an unknown id; a
terminal task (`completed`/`failed`) whose timestamp is more than one hour
old is deleted from `chat_tasks` and reported 404; every other task is
returned with the map unchanged.  The 404 outcome is `none`; the returned
map is the second component. -/
def get_chat_task (now : Nat) (tasks : List (String × ChatTask)) (task_id : String) :
    Option ChatTask × List (String × ChatTask) :=
  match assocGet tasks task_id with
  | none => (none, tasks)
  | some t =>
    if t.status == "completed" || t.status == "failed" then
      match taskTimestamp t with
      | some ts =>
        if now - ts > retentionSeconds then (none, assocErase tasks task_id)
        else (some t, tasks)
      | none => (some t, tasks)
    else (some t, tasks)

/-- The ordered status values a task takes in `chat_completions` +
`process_chat_task` (api_server.py:552-715): `processing` synchronously at
submission, then `retrieving` unconditionally; with RAG available, a
retrieval error fails the task, otherwise `generating`, then a generation
error fails it, otherwise `completed`; with RAG unavailable the mock branch
completes directly from `retrieving`. -/
def chatTaskTrace (ragAvailable retrieveOk generateOk : Bool) : List String :=
  ["processing", "retrieving"] ++
  (if ragAvailable then
    if retrieveOk then
      "generating" :: (if generateOk then ["completed"] else ["failed"])
    else ["failed"]
  else ["completed"])

/-! ### Concrete instances used by counterexamples and witnesses -/

/-- A short document with an explicit metadata id, as built by the embedding
script from a CSV row. -/
def sampleDoc : Document :=
  { page_content := "整车质保五年或十万公里", metadata := { id := some "0" } }

/-- The vector store produced by one ingestion of `sampleDoc`. -/
def vsOnce : VectorStore :=
  match defaultProcessor.process_and_store [sampleDoc] [] with
  | .ok r => r.2
  | .error _ => []

def demoKb : KBRecord := { id := "kb_demo", name := "demo" }

def demoState : ServerState := { knowledge_bases := [("kb_demo", demoKb)] }

def demoRow0 : Row := [("Title", some "质保政策"), ("desc", some "整车质保五年")]

def demoRow1 : Row := [("Title", none), ("desc", none)]

def demoRow2 : Row := [("Title", some "保养周期"), ("desc", some "每一万公里保养一次")]

/-- The 3-row CSV of the scenario claim: row 2 (0-based row 1) has empty
`Title` and `desc`. -/
def demoCsv : IngestFile :=
  { filename := "upload.csv", rows := [demoRow0, demoRow1, demoRow2], size := 120 }

def demoAfterUpload : ServerState := (upload_document demoState "kb_demo" demoCsv).2

def demoAfterIngest : ServerState :=
  process_uploaded_document demoAfterUpload (generate_doc_id "upload.csv") "kb_demo" demoCsv

/-- A completed chat task finished at second 1000. -/
def oldTask : ChatTask :=
  { status := "completed", question := "保修期是多久", created_at := 900,
    completed_at := some 1000, result := some "五年" }

/-- A non-terminal chat task created at second 0. -/
def freshTask : ChatTask := { status := "retrieving", question := "保修期是多久" }

/-- The chunk ids of a successful `chunk_documents` result. -/
def chunkIdsOf (r : Except ChunkError (List Chunk)) : Option (List String) :=
  r.toOption.map (fun chunks => chunks.map (fun c => c.chunk_id))

def c6Kb1 : KBRecord := { id := "kb1", name := "a", document_count := 2, chunk_count := 30 }

def c6Kb2 : KBRecord := { id := "kb2", name := "b", document_count := 1, chunk_count := 5 }

def c6Chunk : Chunk :=
  { page_content := "x", chunk_id := "x_0", chunk_index := 0, original_id := "x" }

/-- A registry with two knowledge bases, three document records (two owned
by `kb1`) and one vector entry. -/
def c6State : ServerState :=
  { knowledge_bases := [("kb1", c6Kb1), ("kb2", c6Kb2)],
    documents_storage :=
      [("d1", { id := "d1", kb_id := "kb1", chunk_num := 10 }),
       ("d2", { id := "d2", kb_id := "kb2", chunk_num := 5 }),
       ("d3", { id := "d3", kb_id := "kb1", chunk_num := 20 })],
    vector_store := [("x_0", c6Chunk)] }

def c9State : ServerState :=
  { knowledge_bases := [("kb9", { id := "kb9", name := "c", document_count := 5, chunk_count := 7 })] }

/-- A CSV whose only row is entirely empty, so its ingestion fails
(`process_csv_to_vector_store` finds no valid documents). -/
def c9File : IngestFile :=
  { filename := "bad.csv", rows := [[("Title", none), ("desc", none)]], size := 30 }

def c10State : ServerState :=
  { knowledge_bases := [("kbA", { id := "kbA", name := "d" }), ("kbB", { id := "kbB", name := "e" })] }

def c10File : IngestFile := { filename := "report.csv", rows := [demoRow0], size := 10 }

/-! ## Theorems -/

set_option maxRecDepth 1000000

/-! ### Helper lemmas -/

theorem vsDelete_append (a b : VectorStore) (ids : List String) :
    vsDelete (a ++ b) ids = vsDelete a ids ++ vsDelete b ids :=
  List.filter_append a b

theorem vsDelete_idem (vs : VectorStore) (ids : List String) :
    vsDelete (vsDelete vs ids) ids = vsDelete vs ids := by
  simp [vsDelete, List.filter_filter, Bool.and_self]

theorem vsDelete_new_nil (chunks : List Chunk) :
    vsDelete (chunks.map (fun c => (c.chunk_id, c))) (chunks.map (fun c => c.chunk_id)) = [] := by
  rw [vsDelete, List.filter_eq_nil_iff]
  intro e he
  obtain ⟨c, hc, rfl⟩ := List.mem_map.mp he
  have hm : c.chunk_id ∈ chunks.map (fun c => c.chunk_id) := List.mem_map_of_mem _ hc
  simp [hm]

/-- C1: re-ingesting the same documents through
`DocumentProcessor.process_and_store` with the same chunking parameters
returns the same chunk count and leaves the vector index in exactly the
state produced by the first ingestion: the delete-then-insert commit on
the freshly computed chunk ids overwrites instead of duplicating, so the
set of chunk ids and the total number of index entries are those of a
single ingestion. -/
theorem process_and_store_idempotent (p : DocumentProcessor) (docs : List Document)
    (vs vsOut : VectorStore) (n : Nat)
    (h : p.process_and_store docs vs = .ok (n, vsOut)) :
    p.process_and_store docs vsOut = .ok (n, vsOut) := by
  unfold DocumentProcessor.process_and_store at h ⊢
  cases hc : p.chunk_documents docs with
  | error e => rw [hc] at h; cases h
  | ok chunked =>
    rw [hc] at h
    simp only [Except.ok.injEq, Prod.mk.injEq] at h
    obtain ⟨hn, hv⟩ := h
    subst hn
    subst hv
    simp only [Except.ok.injEq, Prod.mk.injEq, true_and]
    unfold vsAdd
    congr 1
    rw [vsDelete_append, vsDelete_idem, vsDelete_new_nil, List.append_nil]

/-- Witness for C1: a concrete document ingested once and then again; the
second commit reproduces the first state exactly. -/
theorem process_and_store_idempotent_witness :
    defaultProcessor.process_and_store [sampleDoc] [] = .ok (1, vsOnce) ∧
    defaultProcessor.process_and_store [sampleDoc] vsOnce = .ok (1, vsOnce) :=
  ⟨rfl, process_and_store_idempotent defaultProcessor [sampleDoc] [] vsOnce 1 rfl⟩

/-- C4: calling the chunker with `chunk_overlap` at least `chunk_size`, or
with a nonpositive `chunk_size`, fails with `ConfigurationError`, both at
`chunk_documents` and through `process_and_store`; the failure is an
`Except` value, fatal only to the single call. -/
theorem chunker_invalid_params_configuration_error (p : DocumentProcessor)
    (docs : List Document) (vs : VectorStore)
    (h : p.chunk_overlap ≥ p.chunk_size ∨ p.chunk_size ≤ 0) :
    p.chunk_documents docs = .error ChunkError.configurationError ∧
    p.process_and_store docs vs = .error ChunkError.configurationError := by
  have h1 : p.chunk_documents docs = .error ChunkError.configurationError := by
    unfold DocumentProcessor.chunk_documents
    rw [if_pos h]
  refine ⟨h1, ?_⟩
  unfold DocumentProcessor.process_and_store
  rw [h1]

/-- Witness for C4: overlap equal to size (boundary of `overlap ≥ size`)
and a zero size both yield `ConfigurationError`. -/
theorem chunker_invalid_params_configuration_error_witness :
    ({ chunk_size := 512, chunk_overlap := 512 } : DocumentProcessor).chunk_documents []
      = .error ChunkError.configurationError ∧
    ({ chunk_size := 0, chunk_overlap := 50 } : DocumentProcessor).process_and_store [] []
      = .error ChunkError.configurationError :=
  ⟨(chunker_invalid_params_configuration_error _ [] []
      (Or.inl (by decide))).1,
   (chunker_invalid_params_configuration_error _ [] []
      (Or.inr (by decide))).2⟩

theorem chunkDocumentsCore_id_format (split : String → List String)
    (docs : List Document) (acc : List Chunk)
    (hacc : ∀ c ∈ acc, c.chunk_id = c.original_id ++ "_" ++ toString c.chunk_index) :
    ∀ c ∈ chunkDocumentsCore split docs acc,
      c.chunk_id = c.original_id ++ "_" ++ toString c.chunk_index := by
  induction docs generalizing acc with
  | nil => simpa [chunkDocumentsCore] using hacc
  | cons d ds ih =>
    intro c hc
    refine ih _ ?_ c hc
    intro c2 hc2
    rcases List.mem_append.mp hc2 with h1 | h2
    · exact hacc c2 h1
    · obtain ⟨pr, hpr, rfl⟩ := List.mem_map.mp h2
      rfl

/-- C7: the chunker is deterministic — two `chunk_documents` calls on equal
document lists with equal `chunk_size` and `chunk_overlap` produce equal
ordered chunk sequences — and every produced chunk's `chunk_id` is the
string `{original_id}_{chunk_index}`. -/
theorem chunk_documents_deterministic (p q : DocumentProcessor)
    (docs docs2 : List Document)
    (hsize : p.chunk_size = q.chunk_size) (hover : p.chunk_overlap = q.chunk_overlap)
    (hdocs : docs = docs2) :
    p.chunk_documents docs = q.chunk_documents docs2 ∧
    (∀ chunks, p.chunk_documents docs = .ok chunks →
      ∀ c ∈ chunks, c.chunk_id = c.original_id ++ "_" ++ toString c.chunk_index) := by
  have hpq : p = q := by
    cases p
    cases q
    simp_all
  subst hpq
  subst hdocs
  refine ⟨rfl, ?_⟩
  intro chunks hch c hc
  unfold DocumentProcessor.chunk_documents at hch
  by_cases hbad : p.chunk_overlap ≥ p.chunk_size ∨ p.chunk_size ≤ 0
  · rw [if_pos hbad] at hch
    cases hch
  · rw [if_neg hbad] at hch
    cases hch
    exact chunkDocumentsCore_id_format _ _ [] (by intro c2 hc2; cases hc2) c hc

/-- Witness for C7: two calls with the default parameters on the same
concrete document agree, and the single produced chunk id is `0_0`. -/
theorem chunk_documents_deterministic_witness :
    defaultProcessor.chunk_documents [sampleDoc]
      = ({} : DocumentProcessor).chunk_documents [sampleDoc] ∧
    chunkIdsOf (defaultProcessor.chunk_documents [sampleDoc]) = some ["0_0"] :=
  ⟨(chunk_documents_deterministic defaultProcessor {} [sampleDoc] [sampleDoc]
      rfl rfl rfl).1, by decide⟩

/-- C2 counterexample: with RAG unavailable the mock success branch of
`process_chat_task` completes directly from `retrieving`; the task reaches
`completed` without ever passing through `generating`, refuting the claim
that every success path passes through both `retrieving` and `generating`. -/
theorem chat_trace_mock_skips_generating :
    chatTaskTrace false true true = ["processing", "retrieving", "completed"] ∧
    "completed" ∈ chatTaskTrace false true true ∧
    ¬ "generating" ∈ chatTaskTrace false true true := by
  decide

/-- C2 amended: every status of a task trace lies in
{processing, retrieving, generating, completed, failed}; `completed` and
`failed` are mutually exclusive and occur only as the final status; every
trace starts `processing`, `retrieving` (so no task skips from
`processing` straight to `completed`); when RAG is available a completed
task has passed through `generating`, while the mock branch (RAG
unavailable) completes without `generating`. -/
theorem chat_task_state_machine (rag retrieveOk generateOk : Bool) :
    (∀ s ∈ chatTaskTrace rag retrieveOk generateOk,
        s ∈ ["processing", "retrieving", "generating", "completed", "failed"]) ∧
    ¬("completed" ∈ chatTaskTrace rag retrieveOk generateOk ∧
      "failed" ∈ chatTaskTrace rag retrieveOk generateOk) ∧
    (∀ s ∈ (chatTaskTrace rag retrieveOk generateOk).dropLast,
        s ≠ "completed" ∧ s ≠ "failed") ∧
    (chatTaskTrace rag retrieveOk generateOk).take 2 = ["processing", "retrieving"] ∧
    (rag = true → "completed" ∈ chatTaskTrace rag retrieveOk generateOk →
      "generating" ∈ chatTaskTrace rag retrieveOk generateOk) ∧
    (rag = false → "completed" ∈ chatTaskTrace rag retrieveOk generateOk ∧
      ¬ "generating" ∈ chatTaskTrace rag retrieveOk generateOk) := by
  cases rag <;> cases retrieveOk <;> cases generateOk <;> decide

/-- Witness for C2: the RAG success path does pass through `generating`,
and the mock path completes. -/
theorem chat_task_state_machine_witness :
    "generating" ∈ chatTaskTrace true true true ∧
    "completed" ∈ chatTaskTrace false true true :=
  ⟨(chat_task_state_machine true true true).2.2.2.2.1 rfl (by decide),
   ((chat_task_state_machine false true true).2.2.2.2.2 rfl).1⟩

/-- C3 counterexample: uploading the 3-row CSV whose second row is empty
yields 2 documents in the vector index (each valid row is one chunk), but
the knowledge base's `chunk_count` grows by `len(df) = 3` — the CSV row
count including the skipped row — not by the number of chunks produced
from the 2 valid rows, refuting the claim. -/
theorem csv_scenario_chunk_count_counterexample :
    demoAfterIngest.vector_store.length = 2 ∧
    chunkCountOf demoAfterIngest "kb_demo" = some 3 ∧
    chunkCountOf demoState "kb_demo" = some 0 ∧
    (3 : Int) ≠ (2 : Int) := by
  decide

/-- C3 amended: the 3-row CSV with an empty second row ingests without
aborting: 2 documents are written to the vector index, 1 row is skipped,
the document record completes with `chunk_num = 3`, `document_count`
rises by exactly 1, and `chunk_count` rises by the total CSV row count
(3), not by the chunk count of the 2 valid rows. -/
theorem csv_scenario_amended :
    (process_csv_to_vector_store demoCsv.rows "./data/upload.csv" "kb_demo" []).1 = true ∧
    demoAfterIngest.vector_store.length = 2 ∧
    csvSkippedCount demoCsv.rows = 1 ∧
    docCountOf demoState "kb_demo" = some 0 ∧
    docCountOf demoAfterIngest "kb_demo" = some 1 ∧
    chunkCountOf demoAfterIngest "kb_demo" = some 3 ∧
    docStatusOf demoAfterIngest (generate_doc_id "upload.csv") = some "completed" := by
  decide


theorem assocGet_cons_pos (e : String × α) (es : List (String × α)) (k : String)
    (h : (e.1 == k) = true) : assocGet (e :: es) k = some e.2 := by
  unfold assocGet
  rw [List.find?_cons_of_pos es (show ((fun x : String × α => x.1 == k) e) = true from h)]
  rfl

theorem assocGet_cons_neg (e : String × α) (es : List (String × α)) (k : String)
    (h : (e.1 == k) = false) : assocGet (e :: es) k = assocGet es k := by
  unfold assocGet
  rw [List.find?_cons_of_neg es
    (show ¬ ((fun x : String × α => x.1 == k) e) = true from by simp [h])]

theorem assocErase_cons_pos (e : String × α) (es : List (String × α)) (k : String)
    (h : (e.1 == k) = true) : assocErase (e :: es) k = assocErase es k := by
  unfold assocErase
  rw [List.filter_cons]
  simp [h]

theorem assocErase_cons_neg (e : String × α) (es : List (String × α)) (k : String)
    (h : (e.1 == k) = false) : assocErase (e :: es) k = e :: assocErase es k := by
  unfold assocErase
  rw [List.filter_cons]
  simp [h]

theorem assocGet_erase_self (l : List (String × α)) (k : String) :
    assocGet (assocErase l k) k = none := by
  induction l with
  | nil => rfl
  | cons e es ih =>
    cases h : (e.1 == k) with
    | true => rw [assocErase_cons_pos e es k h]; exact ih
    | false => rw [assocErase_cons_neg e es k h, assocGet_cons_neg e _ k h]; exact ih

theorem assocGet_erase_ne (l : List (String × α)) (k k2 : String) (h : k2 ≠ k) :
    assocGet (assocErase l k) k2 = assocGet l k2 := by
  induction l with
  | nil => rfl
  | cons e es ih =>
    cases he : (e.1 == k) with
    | true =>
      have he1 : e.1 = k := by simpa using he
      have hk2 : (e.1 == k2) = false := by
        rw [he1]
        simp
        exact fun hh => h hh.symm
      rw [assocErase_cons_pos e es k he, assocGet_cons_neg e es k2 hk2]
      exact ih
    | false =>
      rw [assocErase_cons_neg e es k he]
      cases h2 : (e.1 == k2) with
      | true => rw [assocGet_cons_pos e _ k2 h2, assocGet_cons_pos e es k2 h2]
      | false => rw [assocGet_cons_neg e _ k2 h2, assocGet_cons_neg e es k2 h2]; exact ih

/-- C5: a poll on a terminal task (`completed` or `failed`) whose
completion/failure timestamp lies more than one hour in the past reports
not-found and lazily deletes the entry from the task map; a poll on an id
absent from the map also reports not-found. -/
theorem poll_expired_terminal_not_found (now : Nat) (tasks : List (String × ChatTask))
    (task_id : String) (t : ChatTask) (ts : Nat)
    (hget : assocGet tasks task_id = some t)
    (hterm : t.status = "completed" ∨ t.status = "failed")
    (hts : taskTimestamp t = some ts)
    (hold : now - ts > retentionSeconds) :
    get_chat_task now tasks task_id = (none, assocErase tasks task_id) ∧
    assocGet (assocErase tasks task_id) task_id = none ∧
    (∀ other_id, assocGet tasks other_id = none →
      get_chat_task now tasks other_id = (none, tasks)) := by
  have hb : (t.status == "completed" || t.status == "failed") = true := by
    rcases hterm with h | h <;> simp [h]
  refine ⟨?_, assocGet_erase_self tasks task_id, ?_⟩
  · simp [get_chat_task, hget, hb, hts, hold]
  · intro oid hoid
    simp [get_chat_task, hoid]

/-- Witness for C5: a task completed at second 1000, polled at second
10000, is evicted and not found; an unknown id is not found. -/
theorem poll_expired_terminal_not_found_witness :
    get_chat_task 10000 [("t1", oldTask)] "t1" = (none, assocErase [("t1", oldTask)] "t1") ∧
    get_chat_task 10000 [("t1", oldTask)] "t9" = (none, [("t1", oldTask)]) := by
  have h := poll_expired_terminal_not_found 10000 [("t1", oldTask)] "t1" oldTask 1000
    (by decide) (Or.inl rfl) (by decide) (by decide)
  exact ⟨h.1, h.2.2 "t9" (by decide)⟩

/-- C8: the poll reports not-found exactly when the task id is absent or
the task is terminal with a completion/failure timestamp more than one
hour old; a non-terminal task is always returned with the task map left
unchanged (never evicted), no matter how old it is. -/
theorem poll_not_found_iff (now : Nat) (tasks : List (String × ChatTask))
    (task_id : String) :
    ((get_chat_task now tasks task_id).1 = none ↔
      assocGet tasks task_id = none ∨
      ∃ t ts, assocGet tasks task_id = some t ∧
        (t.status = "completed" ∨ t.status = "failed") ∧
        taskTimestamp t = some ts ∧ now - ts > retentionSeconds) ∧
    (∀ t, assocGet tasks task_id = some t →
      t.status ≠ "completed" → t.status ≠ "failed" →
      get_chat_task now tasks task_id = (some t, tasks)) := by
  constructor
  · cases hget : assocGet tasks task_id with
    | none => simp [get_chat_task, hget]
    | some t =>
      by_cases hb : (t.status == "completed" || t.status == "failed") = true
      · have hterm : t.status = "completed" ∨ t.status = "failed" := by
          simpa using hb
        cases hts : taskTimestamp t with
        | none => simp [get_chat_task, hget, hb, hts]
        | some ts =>
          by_cases hold : now - ts > retentionSeconds
          · simp [get_chat_task, hget, hb, hts, hold, hterm]
          · simp [get_chat_task, hget, hb, hts, hold]
      · have hterm : ¬(t.status = "completed" ∨ t.status = "failed") := by
          simpa using hb
        simp [get_chat_task, hget, hb, hterm]
  · intro t hget h1 h2
    have hb : (t.status == "completed" || t.status == "failed") = false := by
      simp [h1, h2]
    simp [get_chat_task, hget, hb]

/-- Witness for C8: a non-terminal task created at second 0 and polled at
second 999999 is still returned and the map is unchanged. -/
theorem poll_not_found_iff_witness :
    get_chat_task 999999 [("t2", freshTask)] "t2" = (some freshTask, [("t2", freshTask)]) :=
  (poll_not_found_iff 999999 [("t2", freshTask)] "t2").2 freshTask
    (by decide) (by decide) (by decide)

theorem length_filter_not_add_countP (l : List β) (p : β → Bool) :
    (l.filter (fun x => !(p x))).length + l.countP p = l.length := by
  induction l with
  | nil => rfl
  | cons x xs ih =>
    cases hx : p x <;> simp [List.filter_cons, List.countP_cons, hx] <;> omega

theorem assocErase_of_not_mem (l : List (String × α)) (k : String)
    (h : k ∉ l.map (fun e => e.1)) : assocErase l k = l := by
  induction l with
  | nil => rfl
  | cons e es ih =>
    have h1 : ¬ (e.1 = k) := by
      intro hh
      exact h (by simp [hh])
    have hbe : (e.1 == k) = false := by simp [h1]
    rw [assocErase_cons_neg e es k hbe, ih (fun hm => h (List.mem_cons_of_mem e.1 hm))]

theorem sum_proj_erase (proj : KBRecord → Int) (kbs : List (String × KBRecord))
    (k : String) (kb : KBRecord)
    (hnd : (kbs.map (fun e => e.1)).Nodup)
    (hget : assocGet kbs k = some kb) :
    ((assocErase kbs k).map (fun e => proj e.2)).sum
      = (kbs.map (fun e => proj e.2)).sum - proj kb := by
  induction kbs with
  | nil => simp [assocGet] at hget
  | cons e es ih =>
    obtain ⟨hnotin, hndes⟩ := List.nodup_cons.mp hnd
    cases he : (e.1 == k) with
    | true =>
      have hek : e.1 = k := by simpa using he
      rw [assocGet_cons_pos e es k he] at hget
      injection hget with hkb
      have hni : k ∉ es.map (fun x => x.1) := hek ▸ hnotin
      rw [assocErase_cons_pos e es k he, assocErase_of_not_mem es k hni,
        List.map_cons, List.sum_cons, hkb]
      omega
    | false =>
      rw [assocGet_cons_neg e es k he] at hget
      rw [assocErase_cons_neg e es k he, List.map_cons, List.sum_cons,
        List.map_cons, List.sum_cons, ih hndes hget]
      omega

/-- C6: deleting a knowledge base that owns N document records removes
exactly those N records (the registry keeps precisely the documents of
other knowledge bases, so the global document total drops by N) and the
knowledge-base entry itself (other entries are untouched; the global
`document_count`/`chunk_count` registry totals drop by exactly the deleted
entry's counters), while the vector store is left completely unchanged. -/
theorem delete_dataset_cascade (st : ServerState) (dataset_id : String) (kb : KBRecord)
    (hget : assocGet st.knowledge_bases dataset_id = some kb)
    (hnd : (st.knowledge_bases.map (fun e => e.1)).Nodup) :
    (delete_dataset st dataset_id).1 = 0 ∧
    (delete_dataset st dataset_id).2.documents_storage
      = st.documents_storage.filter (fun e => !(e.2.kb_id == dataset_id)) ∧
    (delete_dataset st dataset_id).2.documents_storage.length
      + st.documents_storage.countP (fun e => e.2.kb_id == dataset_id)
      = st.documents_storage.length ∧
    assocGet (delete_dataset st dataset_id).2.knowledge_bases dataset_id = none ∧
    (∀ k2, k2 ≠ dataset_id →
      assocGet (delete_dataset st dataset_id).2.knowledge_bases k2
        = assocGet st.knowledge_bases k2) ∧
    kbDocTotal (delete_dataset st dataset_id).2.knowledge_bases
      = kbDocTotal st.knowledge_bases - kb.document_count ∧
    kbChunkTotal (delete_dataset st dataset_id).2.knowledge_bases
      = kbChunkTotal st.knowledge_bases - kb.chunk_count ∧
    (delete_dataset st dataset_id).2.vector_store = st.vector_store := by
  have hhas : assocHas st.knowledge_bases dataset_id = true := by
    unfold assocHas
    rw [hget]
    rfl
  have hdel : delete_dataset st dataset_id
      = (0, { st with
          documents_storage := st.documents_storage.filter (fun e => !(e.2.kb_id == dataset_id)),
          knowledge_bases := assocErase st.knowledge_bases dataset_id }) := by
    unfold delete_dataset
    rw [hhas]
    rfl
  rw [hdel]
  refine ⟨rfl, rfl, ?_, ?_, ?_, ?_, ?_, rfl⟩
  · exact length_filter_not_add_countP _ _
  · exact assocGet_erase_self _ _
  · intro k2 hk2
    exact assocGet_erase_ne _ _ _ hk2
  · exact sum_proj_erase (fun x => x.document_count) _ _ _ hnd hget
  · exact sum_proj_erase (fun x => x.chunk_count) _ _ _ hnd hget

/-- Witness for C6: deleting `kb1` from the concrete two-base registry
leaves the vector store unchanged, evicts the entry, drops the registry to
the one document of `kb2`, and drops the totals by `kb1`'s counters. -/
theorem delete_dataset_cascade_witness :
    (delete_dataset c6State "kb1").2.vector_store = c6State.vector_store ∧
    assocGet (delete_dataset c6State "kb1").2.knowledge_bases "kb1" = none ∧
    (delete_dataset c6State "kb1").2.documents_storage.length
      + c6State.documents_storage.countP (fun e => e.2.kb_id == "kb1")
      = c6State.documents_storage.length ∧
    kbChunkTotal (delete_dataset c6State "kb1").2.knowledge_bases
      = kbChunkTotal c6State.knowledge_bases - 30 := by
  have h := delete_dataset_cascade c6State "kb1" c6Kb1 (by decide) (by decide)
  exact ⟨h.2.2.2.2.2.2.2, h.2.2.2.1, h.2.2.1, h.2.2.2.2.2.2.1⟩

theorem assocGet_update_self (l : List (String × α)) (k : String) (f : α → α) :
    assocGet (assocUpdate l k f) k = (assocGet l k).map f := by
  induction l with
  | nil => rfl
  | cons e es ih =>
    have hcons : assocUpdate (e :: es) k f
        = (if (e.1 == k) = true then (e.1, f e.2) else e) :: assocUpdate es k f := rfl
    rw [hcons]
    cases he : (e.1 == k) with
    | true =>
      rw [if_pos rfl,
        assocGet_cons_pos (e.1, f e.2) _ k (show ((e.1, f e.2).1 == k) = true from he),
        assocGet_cons_pos e es k he]
      rfl
    | false =>
      rw [if_neg (by simp), assocGet_cons_neg e _ k he, assocGet_cons_neg e es k he]
      exact ih

theorem docCount_assocUpdate (l : List (String × KBRecord)) (k fid : String)
    (f : KBRecord → KBRecord)
    (hf : ∀ kb, (f kb).document_count = kb.document_count) :
    (assocGet (assocUpdate l k f) fid).map (fun kb => kb.document_count)
      = (assocGet l fid).map (fun kb => kb.document_count) := by
  induction l with
  | nil => rfl
  | cons e es ih =>
    have hcons : assocUpdate (e :: es) k f
        = (if (e.1 == k) = true then (e.1, f e.2) else e) :: assocUpdate es k f := rfl
    rw [hcons]
    cases he : (e.1 == k) with
    | true =>
      rw [if_pos rfl]
      cases hfid : (e.1 == fid) with
      | true =>
        rw [assocGet_cons_pos (e.1, f e.2) _ fid (show ((e.1, f e.2).1 == fid) = true from hfid),
          assocGet_cons_pos e es fid hfid]
        simp [hf]
      | false =>
        rw [assocGet_cons_neg (e.1, f e.2) _ fid (show ((e.1, f e.2).1 == fid) = false from hfid),
          assocGet_cons_neg e es fid hfid]
        exact ih
    | false =>
      rw [if_neg (by simp)]
      cases hfid : (e.1 == fid) with
      | true =>
        rw [assocGet_cons_pos e _ fid hfid, assocGet_cons_pos e es fid hfid]
      | false =>
        rw [assocGet_cons_neg e _ fid hfid, assocGet_cons_neg e es fid hfid]
        exact ih

theorem markDocFailed_kbs (st : ServerState) (doc_id : String) :
    (markDocFailed st doc_id).knowledge_bases = st.knowledge_bases := by
  unfold markDocFailed
  split <;> rfl

theorem completeDocAndCount_docCount (st : ServerState) (doc_id kb_id : String)
    (cnt : Int) (fid : String) :
    (assocGet (completeDocAndCount st doc_id kb_id cnt).knowledge_bases fid).map
        (fun kb => kb.document_count)
      = (assocGet st.knowledge_bases fid).map (fun kb => kb.document_count) := by
  unfold completeDocAndCount
  split
  · dsimp only
    split
    · exact docCount_assocUpdate st.knowledge_bases kb_id fid
        (fun kb => { kb with chunk_count := kb.chunk_count + cnt }) (fun kb => rfl)
    · rw [markDocFailed_kbs]
  · rfl

theorem process_uploaded_document_docCount (st : ServerState) (doc_id kb_id : String)
    (file : IngestFile) (fid : String) :
    (assocGet (process_uploaded_document st doc_id kb_id file).knowledge_bases fid).map
        (fun kb => kb.document_count)
      = (assocGet st.knowledge_bases fid).map (fun kb => kb.document_count) := by
  unfold process_uploaded_document
  dsimp only
  split
  · split
    · exact completeDocAndCount_docCount _ _ _ _ _
    · rw [markDocFailed_kbs]
  · split
    · split
      · exact completeDocAndCount_docCount _ _ _ _ _
      · rw [markDocFailed_kbs]
    · exact completeDocAndCount_docCount _ _ _ _ _

theorem upload_document_notFound (st : ServerState) (dataset_id : String) (file : IngestFile)
    (hhas : assocHas st.knowledge_bases dataset_id = false) :
    upload_document st dataset_id file = (.notFound, st) := by
  unfold upload_document
  rw [hhas]
  rfl

theorem upload_document_badType (st : ServerState) (dataset_id : String) (file : IngestFile)
    (hhas : assocHas st.knowledge_bases dataset_id = true)
    (hext : allowed_extensions.contains (strToLower (pathSuffix file.filename)) = false) :
    upload_document st dataset_id file = (.badType, st) := by
  have hmem : strToLower (pathSuffix file.filename) ∉ allowed_extensions := by
    simpa using hext
  unfold upload_document
  simp [hhas, hmem]

theorem upload_document_ok_eq (st : ServerState) (dataset_id : String) (file : IngestFile)
    (hhas : assocHas st.knowledge_bases dataset_id = true)
    (hext : allowed_extensions.contains (strToLower (pathSuffix file.filename)) = true) :
    upload_document st dataset_id file =
      (.ok (uploadDocInfo dataset_id file),
       { st with
          documents_storage := assocSet st.documents_storage (generate_doc_id file.filename)
            (uploadDocInfo dataset_id file),
          knowledge_bases := assocUpdate st.knowledge_bases dataset_id
            (fun kb => { kb with document_count := kb.document_count + 1 }) }) := by
  have hmem : strToLower (pathSuffix file.filename) ∈ allowed_extensions := by
    simpa using hext
  unfold upload_document
  simp [hhas, hmem]

/-- C9: an accepted upload (existing knowledge base, allowed extension)
increments the owning knowledge base's `document_count` by exactly 1
synchronously at upload time, and the subsequent background processing —
whatever its input and outcome, including a failed ingestion that marks
the document record `failed` — never changes `document_count` again: the
increment is never rolled back. -/
theorem upload_count_sync_and_persistent (st : ServerState) (dataset_id : String)
    (file : IngestFile) (kb : KBRecord)
    (hkb : assocGet st.knowledge_bases dataset_id = some kb)
    (hext : allowed_extensions.contains (strToLower (pathSuffix file.filename)) = true) :
    docCountOf (upload_document st dataset_id file).2 dataset_id
      = some (kb.document_count + 1) ∧
    (∀ doc_id kb_id file2,
      docCountOf
          (process_uploaded_document (upload_document st dataset_id file).2 doc_id kb_id file2)
          dataset_id
        = some (kb.document_count + 1)) := by
  have hhas : assocHas st.knowledge_bases dataset_id = true := by
    unfold assocHas
    rw [hkb]
    rfl
  have h1 : docCountOf (upload_document st dataset_id file).2 dataset_id
      = some (kb.document_count + 1) := by
    rw [upload_document_ok_eq st dataset_id file hhas hext]
    unfold docCountOf
    dsimp only
    rw [assocGet_update_self, hkb]
    rfl
  refine ⟨h1, ?_⟩
  intro doc_id kb_id file2
  have hp := process_uploaded_document_docCount
    (upload_document st dataset_id file).2 doc_id kb_id file2 dataset_id
  unfold docCountOf
  rw [hp]
  exact h1

set_option maxHeartbeats 2000000 in
/-- Witness for C9: uploading `bad.csv` (whose single row is empty) raises
the count from 5 to 6 synchronously; the background ingestion fails and
marks the record `failed`, and the count stays 6. -/
theorem upload_count_sync_and_persistent_witness :
    docCountOf (upload_document c9State "kb9" c9File).2 "kb9" = some 6 ∧
    docCountOf (process_uploaded_document (upload_document c9State "kb9" c9File).2
        (generate_doc_id "bad.csv") "kb9" c9File) "kb9" = some 6 ∧
    docStatusOf (process_uploaded_document (upload_document c9State "kb9" c9File).2
        (generate_doc_id "bad.csv") "kb9" c9File) (generate_doc_id "bad.csv")
      = some "failed" := by
  have h := upload_count_sync_and_persistent c9State "kb9" c9File
    { id := "kb9", name := "c", document_count := 5, chunk_count := 7 } (by decide) (by decide)
  exact ⟨h.1, h.2 (generate_doc_id "bad.csv") "kb9" c9File, by decide⟩

theorem assocGet_mapReplace (l : List (String × α)) (k : String) (v : α)
    (hh : assocHas l k = true) :
    assocGet (l.map (fun e => if e.1 == k then (k, v) else e)) k = some v := by
  induction l with
  | nil => simp [assocHas, assocGet] at hh
  | cons e es ih =>
    rw [List.map_cons]
    cases he : (e.1 == k) with
    | true =>
      rw [if_pos rfl]
      exact assocGet_cons_pos (k, v) _ k (by simp)
    | false =>
      rw [if_neg (by simp), assocGet_cons_neg e _ k he]
      apply ih
      unfold assocHas at hh ⊢
      rw [assocGet_cons_neg e es k he] at hh
      exact hh

theorem assocGet_append_right (l l2 : List (String × α)) (k : String)
    (hmiss : assocGet l k = none) :
    assocGet (l ++ l2) k = assocGet l2 k := by
  induction l with
  | nil => rfl
  | cons e es ih =>
    rw [List.cons_append]
    cases he : (e.1 == k) with
    | true =>
      rw [assocGet_cons_pos e es k he] at hmiss
      cases hmiss
    | false =>
      rw [assocGet_cons_neg e _ k he]
      apply ih
      rw [assocGet_cons_neg e es k he] at hmiss
      exact hmiss

theorem assocGet_set_self (l : List (String × α)) (k : String) (v : α) :
    assocGet (assocSet l k v) k = some v := by
  unfold assocSet
  cases hh : assocHas l k with
  | true =>
    rw [if_pos rfl]
    exact assocGet_mapReplace l k v hh
  | false =>
    rw [if_neg (by simp)]
    have hmiss : assocGet l k = none := by
      unfold assocHas at hh
      cases hg : assocGet l k with
      | none => rfl
      | some w => rw [hg] at hh; simp at hh
    rw [assocGet_append_right l [(k, v)] k hmiss]
    exact assocGet_cons_pos (k, v) [] k (by simp)

theorem assocSet_length_mem (l : List (String × α)) (k : String) (v : α)
    (hh : assocHas l k = true) :
    (assocSet l k v).length = l.length := by
  unfold assocSet
  rw [if_pos hh, List.length_map]

/-- C10: document ids are a function of the filename alone
(`doc_` plus the first 8 hex digits of the filename's MD5), so uploading a
file with the same name a second time — into a different knowledge base —
yields the same document id, and the dictionary assignment overwrites the
existing `documents_storage` record (the new record, owned by the second
knowledge base, sits under the same key and the registry does not grow). -/
theorem doc_id_filename_only_overwrite (st : ServerState) (kbA kbB : String)
    (file : IngestFile) (kb2 : KBRecord)
    (hA : assocHas st.knowledge_bases kbA = true)
    (hextc : allowed_extensions.contains (strToLower (pathSuffix file.filename)) = true)
    (hkb2 : assocGet (upload_document st kbA file).2.knowledge_bases kbB = some kb2) :
    (upload_document st kbA file).1 = UploadResult.ok (uploadDocInfo kbA file) ∧
    (uploadDocInfo kbA file).id = generate_doc_id file.filename ∧
    (upload_document (upload_document st kbA file).2 kbB file).1
      = UploadResult.ok (uploadDocInfo kbB file) ∧
    (uploadDocInfo kbB file).id = generate_doc_id file.filename ∧
    (uploadDocInfo kbB file).kb_id = kbB ∧
    assocGet (upload_document (upload_document st kbA file).2 kbB file).2.documents_storage
        (generate_doc_id file.filename) = some (uploadDocInfo kbB file) ∧
    (upload_document (upload_document st kbA file).2 kbB file).2.documents_storage.length
      = (upload_document st kbA file).2.documents_storage.length := by
  have hup1 := upload_document_ok_eq st kbA file hA hextc
  have hhasB : assocHas (upload_document st kbA file).2.knowledge_bases kbB = true := by
    unfold assocHas
    rw [hkb2]
    rfl
  have hup2 := upload_document_ok_eq (upload_document st kbA file).2 kbB file hhasB hextc
  have hdocs1 : (upload_document st kbA file).2.documents_storage
      = assocSet st.documents_storage (generate_doc_id file.filename)
          (uploadDocInfo kbA file) := by
    rw [hup1]
  have hdocs2 : (upload_document (upload_document st kbA file).2 kbB file).2.documents_storage
      = assocSet (upload_document st kbA file).2.documents_storage
          (generate_doc_id file.filename) (uploadDocInfo kbB file) := by
    rw [hup2]
  have hhasDoc : assocHas (upload_document st kbA file).2.documents_storage
      (generate_doc_id file.filename) = true := by
    unfold assocHas
    rw [hdocs1, assocGet_set_self]
    rfl
  refine ⟨?_, rfl, ?_, rfl, rfl, ?_, ?_⟩
  · rw [hup1]
  · rw [hup2]
  · rw [hdocs2]
    exact assocGet_set_self _ _ _
  · rw [hdocs2]
    exact assocSet_length_mem _ _ _ hhasDoc

set_option maxHeartbeats 2000000 in
/-- Witness for C10: `report.csv` uploaded to `kbA` and then to `kbB`; the
second upload overwrites the record of the first under the same id and the
registry does not grow. -/
theorem doc_id_filename_only_overwrite_witness :
    (upload_document (upload_document c10State "kbA" c10File).2 "kbB" c10File).1
      = UploadResult.ok (uploadDocInfo "kbB" c10File) ∧
    assocGet (upload_document (upload_document c10State "kbA" c10File).2
        "kbB" c10File).2.documents_storage (generate_doc_id "report.csv")
      = some (uploadDocInfo "kbB" c10File) ∧
    (upload_document (upload_document c10State "kbA" c10File).2
        "kbB" c10File).2.documents_storage.length
      = (upload_document c10State "kbA" c10File).2.documents_storage.length := by
  have h := doc_id_filename_only_overwrite c10State "kbA" "kbB" c10File
    { id := "kbB", name := "e" } (by decide) (by decide) (by decide)
  exact ⟨h.2.2.1, h.2.2.2.2.2.1, h.2.2.2.2.2.2⟩
